import Mathlib

/-!
Verification of the subprocess-orchestration core of the `graphviz` Python
package (command construction, capability validation, render-path and
version-banner logic), via a shallow embedding of
`graphviz/backend/__init__.py` and `graphviz/__init__.py`.
-/

set_option maxRecDepth 10000

/-- Errors raised by the embedded code, mirroring the Python exception
taxonomy: `RequiredArgumentError`, the `ValueError`s naming an unknown
capability value, `ExecutableNotFound`, `CalledProcessError`, and the
`RuntimeError` raised by `version` when the banner cannot be parsed. -/
inductive GraphvizError where
  | requiredArgument (msg : String)
  | unknownEngine (value : String)
  | unknownFormat (value : String)
  | unknownRenderer (value : String)
  | unknownFormatter (value : String)
  | executableNotFound (name : String)
  | calledProcessError (returncode : Int) (stderr : String)
  | cannotParseVersion (raw : String)
deriving DecidableEq, Repr

/-- `DOT_BINARY = pathlib.Path('dot')`, modelled as its string form. -/
def DOT_BINARY : String := "dot"

/-- The `ENGINES` capability set from `graphviz/backend/__init__.py`. -/
def ENGINES : List String :=
  ["dot", "neato", "twopi", "circo", "fdp", "sfdp", "patchwork", "osage"]

/-- The `FORMATS` capability set from `graphviz/backend/__init__.py`. -/
def FORMATS : List String :=
  ["bmp",
   "canon", "dot", "gv", "xdot", "xdot1.2", "xdot1.4",
   "cgimage",
   "cmap",
   "eps",
   "exr",
   "fig",
   "gd", "gd2",
   "gif",
   "gtk",
   "ico",
   "imap", "cmapx",
   "imap_np", "cmapx_np",
   "ismap",
   "jp2",
   "jpg", "jpeg", "jpe",
   "json", "json0", "dot_json", "xdot_json",
   "pct", "pict",
   "pdf",
   "pic",
   "plain", "plain-ext",
   "png",
   "pov",
   "ps",
   "ps2",
   "psd",
   "sgi",
   "svg", "svgz",
   "tga",
   "tif", "tiff",
   "tk",
   "vml", "vmlz",
   "vrml",
   "wbmp",
   "webp",
   "xlib",
   "x11"]

/-- The `RENDERERS` capability set from `graphviz/backend/__init__.py`. -/
def RENDERERS : List String :=
  ["cairo", "dot", "fig", "gd", "gdiplus", "map", "pic", "pov", "ps",
   "svg", "tk", "vml", "vrml", "xdot"]

/-- The `FORMATTERS` capability set from `graphviz/backend/__init__.py`. -/
def FORMATTERS : List String :=
  ["cairo", "core", "gd", "gdiplus", "gdwbmp", "xlib"]

/-- Holds for an optional capability value that is present but outside its
registry, mirroring the Python test `v is not None and v not in registry`. -/
def optUnknown (v : Option String) (registry : List String) : Prop :=
  match v with
  | none => False
  | some s => s ∉ registry

instance : (v : Option String) → (registry : List String) →
    Decidable (optUnknown v registry)
  | none, _ => isFalse id
  | some s, registry => inferInstanceAs (Decidable (s ∉ registry))

/-- Embedding of `command(engine, format_, *, renderer=None, formatter=None)`
from `graphviz/backend/__init__.py`: the structural formatter/renderer check,
the four verbatim membership checks (no lowercasing), then the args list
`[DOT_BINARY, f'-K{engine}', f'-T{output_format_flag}']` where the format
flag is the colon-join of the non-`None` members of
`(format_, renderer, formatter)`. -/
def command (engine format_ : String)
    (renderer formatter : Option String) :
    Except GraphvizError (List String) :=
  if formatter.isSome ∧ renderer.isNone then
    Except.error (GraphvizError.requiredArgument "formatter given without renderer")
  else if engine ∉ ENGINES then
    Except.error (GraphvizError.unknownEngine engine)
  else if format_ ∉ FORMATS then
    Except.error (GraphvizError.unknownFormat format_)
  else if optUnknown renderer RENDERERS then
    Except.error (GraphvizError.unknownRenderer (renderer.getD ""))
  else if optUnknown formatter FORMATTERS then
    Except.error (GraphvizError.unknownFormatter (formatter.getD ""))
  else
    Except.ok [DOT_BINARY, "-K" ++ engine,
               "-T" ++ String.intercalate ":"
                 (List.filterMap id [some format_, renderer, formatter])]

/-- The process-wide default configuration mutated by `set_default_engine`
and `set_default_format` (the class attributes `Graphviz._engine` and
`Graphviz._format`). -/
structure Defaults where
  engine : String
  format : String
deriving DecidableEq, Repr

/-- The class-attribute defaults `_engine = 'dot'`, `_format = 'pdf'`. -/
def initialDefaults : Defaults := { engine := "dot", format := "pdf" }

/-- Embedding of `set_default_engine` from `graphviz/__init__.py`: verbatim
membership check, then swap, returning the previous default together with
the updated state. An error produces no new state, modelling that the
Python function raises before assigning. -/
def set_default_engine (st : Defaults) (engine : String) :
    Except GraphvizError (String × Defaults) :=
  if engine ∉ ENGINES then
    Except.error (GraphvizError.unknownEngine engine)
  else
    Except.ok (st.engine, { st with engine := engine })

/-- Embedding of `set_default_format` from `graphviz/__init__.py`. -/
def set_default_format (st : Defaults) (format : String) :
    Except GraphvizError (String × Defaults) :=
  if format ∉ FORMATS then
    Except.error (GraphvizError.unknownFormat format)
  else
    Except.ok (st.format, { st with format := format })

/-- Python `str.lower()` restricted to ASCII, as used on the capability
values handled by the `Graphviz` property setters. -/
def pyLower (s : String) : String := String.mk (s.data.map Char.toLower)

/-- The per-instance configuration of the `Graphviz` class, with the
class-attribute defaults `_engine = 'dot'`, `_format = 'pdf'`,
`_renderer = None`, `_formatter = None`. -/
structure GraphvizState where
  engine : String := "dot"
  format : String := "pdf"
  renderer : Option String := none
  formatter : Option String := none
deriving DecidableEq, Repr

/-- Embedding of the `Graphviz.engine` property setter: lowercase, check
membership, assign. An error produces no new state, modelling that the
Python setter raises before assigning. -/
def Graphviz.set_engine (st : GraphvizState) (engine : String) :
    Except GraphvizError GraphvizState :=
  let engine := pyLower engine
  if engine ∉ ENGINES then
    Except.error (GraphvizError.unknownEngine engine)
  else
    Except.ok { st with engine := engine }

/-- Embedding of the `Graphviz.format` property setter. -/
def Graphviz.set_format (st : GraphvizState) (format : String) :
    Except GraphvizError GraphvizState :=
  let format := pyLower format
  if format ∉ FORMATS then
    Except.error (GraphvizError.unknownFormat format)
  else
    Except.ok { st with format := format }

/-- Embedding of the `Graphviz.renderer` property setter: assigning `None`
pops the instance attribute (falling back to the class default `None`);
otherwise lowercase, check membership, assign. -/
def Graphviz.set_renderer (st : GraphvizState) (renderer : Option String) :
    Except GraphvizError GraphvizState :=
  match renderer with
  | none => Except.ok { st with renderer := none }
  | some r =>
    let r := pyLower r
    if r ∉ RENDERERS then
      Except.error (GraphvizError.unknownRenderer r)
    else
      Except.ok { st with renderer := some r }

/-- Embedding of the `Graphviz.formatter` property setter. -/
def Graphviz.set_formatter (st : GraphvizState) (formatter : Option String) :
    Except GraphvizError GraphvizState :=
  match formatter with
  | none => Except.ok { st with formatter := none }
  | some f =>
    let f := pyLower f
    if f ∉ FORMATTERS then
      Except.error (GraphvizError.unknownFormatter f)
    else
      Except.ok { st with formatter := some f }

/-- The `if format is not None: self.format = format` step of
`Graphviz.__init__`. -/
def initOptFormat (st : GraphvizState) : Option String → Except GraphvizError GraphvizState
  | none => Except.ok st
  | some f => Graphviz.set_format st f

/-- The `if engine is not None: self.engine = engine` step of
`Graphviz.__init__`. -/
def initOptEngine (st : GraphvizState) : Option String → Except GraphvizError GraphvizState
  | none => Except.ok st
  | some e => Graphviz.set_engine st e

/-- Embedding of `Graphviz.__init__(format=None, engine=None, *,
renderer=None, formatter=None)`: starting from the class defaults, the
`format` and `engine` setters run only when the argument is not `None`,
then the `renderer` and `formatter` setters run unconditionally. -/
def Graphviz.init (format engine renderer formatter : Option String) :
    Except GraphvizError GraphvizState :=
  (initOptFormat {} format).bind fun st1 =>
    (initOptEngine st1 engine).bind fun st2 =>
      (Graphviz.set_renderer st2 renderer).bind fun st3 =>
        Graphviz.set_formatter st3 formatter

/-- The invariant of the `Graphviz` configuration object: every stored
capability value is a lowercase member of its registry, and the optional
fields are `none` or lowercase members of theirs. -/
def GVInv (st : GraphvizState) : Prop :=
  (st.engine ∈ ENGINES ∧ pyLower st.engine = st.engine) ∧
  (st.format ∈ FORMATS ∧ pyLower st.format = st.format) ∧
  (∀ r, st.renderer = some r → r ∈ RENDERERS ∧ pyLower r = r) ∧
  (∀ f, st.formatter = some f → f ∈ FORMATTERS ∧ pyLower f = f)

/-- The mutually exclusive stdin modes accepted by `run_check` via keyword
arguments: no input, raw bytes, text plus encoding, pre-encoded byte lines,
or text lines plus encoding. Bytes are modelled as lists of naturals. -/
inductive StdinSpec where
  | noInput
  | bytes (data : List Nat)
  | text (input : String) (encoding : String)
  | byteLines (lines : List (List Nat))
  | textLines (lines : List String) (encoding : String)
deriving DecidableEq, Repr

/-- One invocation of the Process Runner `run_check`: the argument vector,
the stdin mode, the working directory, and the `quiet` flag. -/
structure RunCall where
  args : List String
  input : StdinSpec
  cwd : Option String
  quiet : Bool
deriving DecidableEq, Repr

/-- The part of a `subprocess.CompletedProcess` the façades consume. -/
structure CompletedProcess (α : Type) where
  stdout : α
deriving DecidableEq, Repr

/-- Embedding of `posixpath.split` (`os.path.split` on POSIX): split at the
last separator, then strip trailing separators from the head unless it is
empty or all separators. -/
def splitPath (p : String) : String × String :=
  let cs := p.data
  let tail := (cs.reverse.takeWhile (fun c => c ≠ '/')).reverse
  let head := cs.take (cs.length - tail.length)
  let head := if head ≠ [] ∧ head.any (fun c => c ≠ '/') then
                (head.reverse.dropWhile (fun c => c = '/')).reverse
              else head
  (String.mk head, String.mk tail)

/-- Embedding of the two-argument `posixpath.join`: `b` absolute replaces,
otherwise concatenate with a separator unless `a` is empty or already ends
in one. -/
def joinPath (a b : String) : String :=
  if b.data.head? = some '/' then b
  else if a = "" ∨ a.data.getLast? = some '/' then a ++ b
  else a ++ "/" ++ b

/-- Embedding of `render(engine, format, filepath, renderer=None,
formatter=None, quiet=False)`: split the path, build the command (which may
fail), append `-O filename`, derive the output name from the `'.'`-join of
the non-`None` members of `(formatter, renderer, format)`, run from the
directory of `filepath` when it has one, and return the derived path. The
Process Runner is abstracted as the `runner` argument. -/
def render {α : Type} (runner : RunCall → Except GraphvizError (CompletedProcess α))
    (engine format_ : String) (filepath : String)
    (renderer formatter : Option String) (quiet : Bool) :
    Except GraphvizError String :=
  let dirname := (splitPath filepath).1
  let filename := (splitPath filepath).2
  (command engine format_ renderer formatter).bind fun cmd =>
    let suffix := String.intercalate "."
      (List.filterMap id [formatter, renderer, some format_])
    let rendered := filename ++ "." ++ suffix
    let cwd : Option String := if dirname = "" then none else some dirname
    let rendered := if dirname = "" then rendered else joinPath dirname rendered
    (runner { args := cmd ++ ["-O", filename], input := StdinSpec.noInput,
              cwd := cwd, quiet := quiet }).map fun _ => rendered

/-- Embedding of `pipe(engine, format, data, renderer=None, formatter=None,
quiet=False)`: build the command, run it with raw byte input from the
current directory, return the captured stdout. -/
def pipe {α : Type} (runner : RunCall → Except GraphvizError (CompletedProcess α))
    (engine format_ : String) (data : List Nat)
    (renderer formatter : Option String) (quiet : Bool) :
    Except GraphvizError α :=
  (command engine format_ renderer formatter).bind fun cmd =>
    (runner { args := cmd, input := StdinSpec.bytes data,
              cwd := none, quiet := quiet }).map CompletedProcess.stdout

/-- Embedding of `pipe_string(engine, format, input_string, *, encoding,
renderer=None, formatter=None, quiet=False)`. -/
def pipe_string {α : Type} (runner : RunCall → Except GraphvizError (CompletedProcess α))
    (engine format_ : String) (input_string : String) (encoding : String)
    (renderer formatter : Option String) (quiet : Bool) :
    Except GraphvizError α :=
  (command engine format_ renderer formatter).bind fun cmd =>
    (runner { args := cmd, input := StdinSpec.text input_string encoding,
              cwd := none, quiet := quiet }).map CompletedProcess.stdout

/-- Embedding of `pipe_lines(engine, format, input_lines, *, input_encoding,
renderer=None, formatter=None, quiet=False)`: each line is encoded with
`input_encoding` (the codec behavior abstracted as `pyEncode`) before
transmission. -/
def pipe_lines {α : Type} (runner : RunCall → Except GraphvizError (CompletedProcess α))
    (pyEncode : String → String → List Nat)
    (engine format_ : String) (input_lines : List String) (input_encoding : String)
    (renderer formatter : Option String) (quiet : Bool) :
    Except GraphvizError α :=
  (command engine format_ renderer formatter).bind fun cmd =>
    (runner { args := cmd,
              input := StdinSpec.byteLines
                (input_lines.map (pyEncode input_encoding)),
              cwd := none, quiet := quiet }).map CompletedProcess.stdout

/-- Embedding of `pipe_lines_string(engine, format, input_lines, *,
encoding, renderer=None, formatter=None, quiet=False)`. -/
def pipe_lines_string {α : Type} (runner : RunCall → Except GraphvizError (CompletedProcess α))
    (engine format_ : String) (input_lines : List String) (encoding : String)
    (renderer formatter : Option String) (quiet : Bool) :
    Except GraphvizError α :=
  (command engine format_ renderer formatter).bind fun cmd =>
    (runner { args := cmd, input := StdinSpec.textLines input_lines encoding,
              cwd := none, quiet := quiet }).map CompletedProcess.stdout

/-!
The version-banner pattern of `version()`:
`graphviz version (\d+)\.(\d+)(?:\.(\d+)(?:~dev\.\d{8}\.\d{4}|\.(\d+))?)? `
applied with `re.search`. Each `\d+` is followed in the pattern only by
`.`, `~` or a space, none of which is a digit, so the greedy run is always
the maximal digit run and no backtracking inside a run can succeed; the
remaining backtracking (the two optional groups and the alternation, tried
greedily in source order before the mandatory trailing space) is spelled
out below.
-/

/-- Strip an exact character sequence from the front, returning the rest. -/
def stripChars : List Char → List Char → Option (List Char)
  | [], s => some s
  | _ :: _, [] => none
  | p :: ps, c :: cs => if p = c then stripChars ps cs else none

/-- `\d{n}`: exactly `n` digits, returning the rest. -/
def takeExactDigits (n : Nat) (r : List Char) : Option (List Char) :=
  if (r.take n).length = n ∧ (r.take n).all Char.isDigit then some (r.drop n)
  else none

/-- Decimal value of a digit run, as Python `int` applied to the group. -/
def digitsToNat (ds : List Char) : Nat :=
  ds.foldl (fun n c => 10 * n + (c.toNat - 48)) 0

/-- Whether the next character is the mandatory trailing space. -/
def headIsSpace : List Char → Bool
  | ' ' :: _ => true
  | _ => false

/-- The alternative `~dev\.\d{8}\.\d{4}` (payload discarded), returning the
rest on success. -/
def matchDev (r : List Char) : Option (List Char) :=
  match stripChars ['~', 'd', 'e', 'v', '.'] r with
  | none => none
  | some r1 =>
    match takeExactDigits 8 r1 with
    | none => none
    | some r2 =>
      match stripChars ['.'] r2 with
      | none => none
      | some r3 => takeExactDigits 4 r3

/-- Fallback when the inner optional group is not taken: the trailing space
must follow the third digit group directly. -/
def matchG2Absent (g1 g2 g3 : Nat) (r3 : List Char) : Option (List Nat) :=
  if headIsSpace r3 then some [g1, g2, g3] else none

/-- The alternative `\.(\d+)` (a fourth digit group) followed by the
trailing space, falling back to skipping the inner optional group. -/
def matchG2Alt2 (g1 g2 g3 : Nat) (r3 : List Char) : Option (List Nat) :=
  match r3 with
  | '.' :: r4 =>
    if r4.takeWhile Char.isDigit ≠ [] ∧ headIsSpace (r4.dropWhile Char.isDigit) then
      some [g1, g2, g3, digitsToNat (r4.takeWhile Char.isDigit)]
    else matchG2Absent g1 g2 g3 ('.' :: r4)
  | _ => matchG2Absent g1 g2 g3 r3

/-- The inner optional group `(?:~dev\.\d{8}\.\d{4}|\.(\d+))?` followed by
the trailing space: the `~dev` alternative first, then the fourth digit
group, then absence. -/
def matchG2 (g1 g2 g3 : Nat) (r3 : List Char) : Option (List Nat) :=
  match matchDev r3 with
  | some rest =>
    if headIsSpace rest then some [g1, g2, g3] else matchG2Alt2 g1 g2 g3 r3
  | none => matchG2Alt2 g1 g2 g3 r3

/-- Fallback when the outer optional group is not taken: the trailing space
must follow the second digit group directly. -/
def matchNoG1 (g1 g2 : Nat) (r2 : List Char) : Option (List Nat) :=
  if headIsSpace r2 then some [g1, g2] else none

/-- The outer optional group `(?:\.(\d+)...)?`: a third digit group then the
inner group, falling back to skipping the outer group entirely. -/
def matchG1 (g1 g2 : Nat) (r2 : List Char) : Option (List Nat) :=
  match r2 with
  | '.' :: r =>
    if r.takeWhile Char.isDigit = [] then matchNoG1 g1 g2 ('.' :: r)
    else
      match matchG2 g1 g2 (digitsToNat (r.takeWhile Char.isDigit))
              (r.dropWhile Char.isDigit) with
      | some res => some res
      | none => matchNoG1 g1 g2 ('.' :: r)
  | _ => matchNoG1 g1 g2 r2

/-- Attempt to match the whole version pattern at the start of `s`. -/
def matchVersionAt (s : List Char) : Option (List Nat) :=
  match stripChars ("graphviz version ".data) s with
  | none => none
  | some r =>
    if r.takeWhile Char.isDigit = [] then none
    else
      match r.dropWhile Char.isDigit with
      | '.' :: r1 =>
        if r1.takeWhile Char.isDigit = [] then none
        else
          matchG1 (digitsToNat (r.takeWhile Char.isDigit))
            (digitsToNat (r1.takeWhile Char.isDigit))
            (r1.dropWhile Char.isDigit)
      | _ => none

/-- `re.search` over the pattern: try every start position left to right. -/
def searchVersion : List Char → Option (List Nat)
  | [] => none
  | c :: cs =>
    match matchVersionAt (c :: cs) with
    | some res => some res
    | none => searchVersion cs

/-- The parsing half of `version()`: search the captured text for the
banner pattern; on failure raise the `RuntimeError` carrying the raw
captured text, otherwise return the matched digit groups in order. -/
def parseVersionOutput (s : String) : Except GraphvizError (List Nat) :=
  match searchVersion s.data with
  | some groups => Except.ok groups
  | none => Except.error (GraphvizError.cannotParseVersion s)

/-- Embedding of `version()`: run `[DOT_BINARY, '-V']` through the Process
Runner (abstracted as `runner`, with stdout and stderr combined into the
single captured text) and parse the captured banner. -/
def version (runner : RunCall → Except GraphvizError (CompletedProcess String)) :
    Except GraphvizError (List Nat) :=
  match runner { args := [DOT_BINARY, "-V"], input := StdinSpec.noInput,
                 cwd := none, quiet := false } with
  | Except.error e => Except.error e
  | Except.ok proc => parseVersionOutput proc.stdout

/-!
Helper lemmas.
-/

/-- A valid combination passes all five checks of `command` and yields the
three-token argument list. -/
lemma command_ok_of_valid (engine format_ : String) (renderer formatter : Option String)
    (hE : engine ∈ ENGINES) (hF : format_ ∈ FORMATS)
    (hr : renderer = none ∨ ∃ r, renderer = some r ∧ r ∈ RENDERERS)
    (hf : formatter = none ∨ ∃ f, formatter = some f ∧ f ∈ FORMATTERS ∧ renderer ≠ none) :
    command engine format_ renderer formatter =
      Except.ok [DOT_BINARY, "-K" ++ engine,
        "-T" ++ String.intercalate ":"
          (List.filterMap id [some format_, renderer, formatter])] := by
  rcases hf with hf | ⟨f, hf, hfm, hrnn⟩
  · subst hf
    rcases hr with hr | ⟨r, hr, hrm⟩
    · subst hr; simp [command, optUnknown, hE, hF]
    · subst hr; simp [command, optUnknown, hE, hF, hrm]
  · subst hf
    rcases hr with hr | ⟨r, hr, hrm⟩
    · exact absurd hr hrnn
    · subst hr; simp [command, optUnknown, hE, hF, hrm, hfm]

/-- Every registered engine is already lowercase. -/
lemma engines_lower : ∀ x ∈ ENGINES, pyLower x = x := by decide

/-- Every registered format is already lowercase. -/
lemma formats_lower : ∀ x ∈ FORMATS, pyLower x = x := by decide

/-- Every registered renderer is already lowercase. -/
lemma renderers_lower : ∀ x ∈ RENDERERS, pyLower x = x := by decide

/-- Every registered formatter is already lowercase. -/
lemma formatters_lower : ∀ x ∈ FORMATTERS, pyLower x = x := by decide

/-- Splitting a successful `Except.bind` into its two successful stages. -/
lemma except_bind_ok {ε α β : Type} (x : Except ε α) (f : α → Except ε β) (b : β)
    (h : x.bind f = Except.ok b) : ∃ a, x = Except.ok a ∧ f a = Except.ok b := by
  cases x with
  | error e => exact absurd h (by simp [Except.bind])
  | ok a => exact ⟨a, rfl, h⟩

/-- The class-attribute defaults satisfy the configuration invariant. -/
lemma gvinv_default : GVInv {} := by
  refine ⟨⟨by decide, by decide⟩, ⟨by decide, by decide⟩, ?_, ?_⟩
  · intro r hr
    simp at hr
  · intro f hf
    simp at hf

/-- The engine setter preserves the configuration invariant. -/
lemma set_engine_preserves (st : GraphvizState) (v : String) (st' : GraphvizState)
    (hinv : GVInv st) (h : Graphviz.set_engine st v = Except.ok st') : GVInv st' := by
  simp only [Graphviz.set_engine] at h
  split at h
  · simp at h
  · simp only [Except.ok.injEq] at h
    subst h
    rename_i hmem
    rw [not_not] at hmem
    exact ⟨⟨hmem, engines_lower _ hmem⟩, hinv.2.1, hinv.2.2.1, hinv.2.2.2⟩

/-- The format setter preserves the configuration invariant. -/
lemma set_format_preserves (st : GraphvizState) (v : String) (st' : GraphvizState)
    (hinv : GVInv st) (h : Graphviz.set_format st v = Except.ok st') : GVInv st' := by
  simp only [Graphviz.set_format] at h
  split at h
  · simp at h
  · simp only [Except.ok.injEq] at h
    subst h
    rename_i hmem
    rw [not_not] at hmem
    exact ⟨hinv.1, ⟨hmem, formats_lower _ hmem⟩, hinv.2.2.1, hinv.2.2.2⟩

/-- The renderer setter preserves the configuration invariant. -/
lemma set_renderer_preserves (st : GraphvizState) (v : Option String)
    (st' : GraphvizState) (hinv : GVInv st)
    (h : Graphviz.set_renderer st v = Except.ok st') : GVInv st' := by
  cases v with
  | none =>
    simp only [Graphviz.set_renderer, Except.ok.injEq] at h
    subst h
    refine ⟨hinv.1, hinv.2.1, ?_, hinv.2.2.2⟩
    intro r hr
    simp at hr
  | some r =>
    simp only [Graphviz.set_renderer] at h
    split at h
    · simp at h
    · simp only [Except.ok.injEq] at h
      subst h
      rename_i hmem
      rw [not_not] at hmem
      refine ⟨hinv.1, hinv.2.1, fun r' hr' => ?_, hinv.2.2.2⟩
      injection hr' with h2
      subst h2
      exact ⟨hmem, renderers_lower _ hmem⟩

/-- The formatter setter preserves the configuration invariant. -/
lemma set_formatter_preserves (st : GraphvizState) (v : Option String)
    (st' : GraphvizState) (hinv : GVInv st)
    (h : Graphviz.set_formatter st v = Except.ok st') : GVInv st' := by
  cases v with
  | none =>
    simp only [Graphviz.set_formatter, Except.ok.injEq] at h
    subst h
    refine ⟨hinv.1, hinv.2.1, hinv.2.2.1, ?_⟩
    intro f hf
    simp at hf
  | some f =>
    simp only [Graphviz.set_formatter] at h
    split at h
    · simp at h
    · simp only [Except.ok.injEq] at h
      subst h
      rename_i hmem
      rw [not_not] at hmem
      refine ⟨hinv.1, hinv.2.1, hinv.2.2.1, fun f' hf' => ?_⟩
      injection hf' with h2
      subst h2
      exact ⟨hmem, formatters_lower _ hmem⟩

/-- The optional format step of `Graphviz.__init__` preserves the
invariant. -/
lemma init_format_step_preserves (st : GraphvizState) (v : Option String)
    (st' : GraphvizState) (hinv : GVInv st)
    (h : initOptFormat st v = Except.ok st') : GVInv st' := by
  cases v with
  | none =>
    simp only [initOptFormat, Except.ok.injEq] at h
    subst h
    exact hinv
  | some x => exact set_format_preserves st x st' hinv h

/-- The optional engine step of `Graphviz.__init__` preserves the
invariant. -/
lemma init_engine_step_preserves (st : GraphvizState) (v : Option String)
    (st' : GraphvizState) (hinv : GVInv st)
    (h : initOptEngine st v = Except.ok st') : GVInv st' := by
  cases v with
  | none =>
    simp only [initOptEngine, Except.ok.injEq] at h
    subst h
    exact hinv
  | some x => exact set_engine_preserves st x st' hinv h

/-- `Graphviz.__init__` only constructs states satisfying the invariant. -/
lemma init_preserves (f e r fm : Option String) (st : GraphvizState)
    (h : Graphviz.init f e r fm = Except.ok st) : GVInv st := by
  unfold Graphviz.init at h
  obtain ⟨st1, h1, h⟩ := except_bind_ok _ _ _ h
  obtain ⟨st2, h2, h⟩ := except_bind_ok _ _ _ h
  obtain ⟨st3, h3, h⟩ := except_bind_ok _ _ _ h
  exact set_formatter_preserves st3 fm st
    (set_renderer_preserves st2 r st3
      (init_engine_step_preserves st1 e st2
        (init_format_step_preserves {} f st1 gvinv_default h1) h2) h3) h

/-- Characters of an appended string. -/
lemma str_data_append (a b : String) : (a ++ b).data = a.data ++ b.data := by
  cases a
  cases b
  rfl

/-- String append is associative. -/
lemma str_append_assoc (x y z : String) : x ++ (y ++ z) = (x ++ y) ++ z := by
  cases x with
  | mk l1 =>
    cases y with
    | mk l2 =>
      cases z with
      | mk l3 => exact congrArg String.mk (List.append_assoc l1 l2 l3).symm

/-- The empty string is a left identity for append. -/
lemma str_empty_append (t : String) : "" ++ t = t := by
  cases t
  rfl

/-- The tail produced by `splitPath` contains no separator. -/
lemma splitPath_tail_no_slash (p : String) :
    ∀ c ∈ (splitPath p).2.data, c ≠ '/' := by
  intro c hc
  simp only [splitPath] at hc
  rw [List.mem_reverse] at hc
  have := List.mem_takeWhile_imp hc
  simpa using this

/-- Joining a directory with an extended tail extends the join, provided
the tail has no separator and the extension does not start with one. -/
lemma joinPath_append_suffix (a t s : String)
    (ht : ∀ c ∈ t.data, c ≠ '/') (hs : s.data.head? ≠ some '/') :
    joinPath a (t ++ s) = joinPath a t ++ s := by
  have ht' : t.data.head? ≠ some '/' := by
    cases htd : t.data with
    | nil => simp
    | cons c cs =>
      simp only [List.head?_cons, ne_eq, Option.some.injEq]
      exact ht c (htd ▸ List.mem_cons_self c cs)
  have hts : (t ++ s).data.head? ≠ some '/' := by
    rw [str_data_append]
    cases htd : t.data with
    | nil => simpa using hs
    | cons c cs =>
      simp only [List.cons_append, List.head?_cons, ne_eq, Option.some.injEq]
      exact ht c (htd ▸ List.mem_cons_self c cs)
  unfold joinPath
  rw [if_neg hts, if_neg ht']
  by_cases hcond : a = "" ∨ a.data.getLast? = some '/'
  · rw [if_pos hcond, if_pos hcond, str_append_assoc]
  · rw [if_neg hcond, if_neg hcond, str_append_assoc]

/-- Joining the empty directory is the identity. -/
lemma joinPath_empty (t : String) : joinPath "" t = t := by
  unfold joinPath
  split
  · rfl
  · rw [if_pos (Or.inl rfl), str_empty_append]

/-!
Claim theorems.
-/

/-- Claim C2: for every engine in `ENGINES` and format in `FORMATS`, with
renderer absent or in `RENDERERS` and formatter absent or (in `FORMATTERS`
with renderer present), `command` succeeds and returns exactly the
three-element list `[DOT_BINARY, '-K' + engine, '-T' + token]`, where the
token is the colon-join of the non-absent members of
`(format, renderer, formatter)` in that order. `command` is a pure
function of its arguments, so no state is modified. -/
theorem command_valid_combinations (engine format_ : String)
    (renderer formatter : Option String)
    (hE : engine ∈ ENGINES) (hF : format_ ∈ FORMATS)
    (hr : renderer = none ∨ ∃ r, renderer = some r ∧ r ∈ RENDERERS)
    (hf : formatter = none ∨ ∃ f, formatter = some f ∧ f ∈ FORMATTERS ∧ renderer ≠ none) :
    command engine format_ renderer formatter =
      Except.ok [DOT_BINARY, "-K" ++ engine,
        "-T" ++ String.intercalate ":"
          (List.filterMap id [some format_, renderer, formatter])] :=
  command_ok_of_valid engine format_ renderer formatter hE hF hr hf

/-- Witness for C2 at `engine = 'dot'`, `format = 'png'`,
`renderer = 'cairo'`, `formatter = 'gd'`. -/
theorem command_valid_combinations_witness :
    command "dot" "png" (some "cairo") (some "gd") =
      Except.ok ["dot", "-Kdot", "-Tpng:cairo:gd"] :=
  command_valid_combinations "dot" "png" (some "cairo") (some "gd")
    (by decide) (by decide)
    (Or.inr ⟨"cairo", rfl, by decide⟩)
    (Or.inr ⟨"gd", rfl, by decide, by decide⟩)

/-- Claim C3: whenever formatter is supplied and renderer is absent,
`command` fails with `RequiredArgumentError` for every engine and format,
and never returns a command. -/
theorem command_formatter_without_renderer (engine format_ f : String) :
    command engine format_ none (some f) =
      Except.error (GraphvizError.requiredArgument "formatter given without renderer") :=
  rfl

/-- Witness for C3 at `engine = 'dot'`, `format = 'pdf'`,
`formatter = 'gd'`. -/
theorem command_formatter_without_renderer_witness :
    command "dot" "pdf" none (some "gd") =
      Except.error (GraphvizError.requiredArgument "formatter given without renderer") :=
  command_formatter_without_renderer "dot" "pdf" "gd"

/-- Claim C8: the formatter-without-renderer argument error takes
precedence over every unknown-capability error: even when engine, format,
and formatter are all outside their capability sets, `command` with a
formatter and no renderer raises `RequiredArgumentError`, because the
structural check runs before any membership validation. -/
theorem required_argument_takes_precedence (engine format_ f : String)
    (_hE : engine ∉ ENGINES) (_hF : format_ ∉ FORMATS) (_hf : f ∉ FORMATTERS) :
    command engine format_ none (some f) =
      Except.error (GraphvizError.requiredArgument "formatter given without renderer") :=
  rfl

/-- Witness for C8 at the all-invalid input
`engine = format = formatter = 'BAD'`. -/
theorem required_argument_takes_precedence_witness :
    "BAD" ∉ ENGINES ∧ "BAD" ∉ FORMATS ∧ "BAD" ∉ FORMATTERS ∧
    command "BAD" "BAD" none (some "BAD") =
      Except.error (GraphvizError.requiredArgument "formatter given without renderer") :=
  ⟨by decide, by decide, by decide,
   required_argument_takes_precedence "BAD" "BAD" "BAD"
     (by decide) (by decide) (by decide)⟩

/-- Claim C6: `set_default_engine` on a member of `ENGINES` returns the
previous default and installs the new one; on a non-member it fails with
the unknown-capability error naming the value, producing no new state (the
Python function raises before assigning, leaving the default unchanged).
`set_default_format` behaves symmetrically over `FORMATS`. -/
theorem set_default_swap (st : Defaults) (engine fm : String) :
    (engine ∈ ENGINES → set_default_engine st engine =
        Except.ok (st.engine, { st with engine := engine })) ∧
    (engine ∉ ENGINES → set_default_engine st engine =
        Except.error (GraphvizError.unknownEngine engine)) ∧
    (fm ∈ FORMATS → set_default_format st fm =
        Except.ok (st.format, { st with format := fm })) ∧
    (fm ∉ FORMATS → set_default_format st fm =
        Except.error (GraphvizError.unknownFormat fm)) := by
  refine ⟨fun h => ?_, fun h => ?_, fun h => ?_, fun h => ?_⟩ <;>
    simp [set_default_engine, set_default_format, h]

/-- Witness for C6 at `engine = 'neato'`, `format = 'png'` from the
initial defaults, and at the unknown values `'DOT'` and `'PNG'`. -/
theorem set_default_swap_witness :
    set_default_engine initialDefaults "neato" =
      Except.ok ("dot", { engine := "neato", format := "pdf" }) ∧
    set_default_engine initialDefaults "DOT" =
      Except.error (GraphvizError.unknownEngine "DOT") ∧
    set_default_format initialDefaults "png" =
      Except.ok ("pdf", { engine := "dot", format := "png" }) ∧
    set_default_format initialDefaults "PNG" =
      Except.error (GraphvizError.unknownFormat "PNG") :=
  ⟨(set_default_swap initialDefaults "neato" "png").1 (by decide),
   (set_default_swap initialDefaults "DOT" "png").2.1 (by decide),
   (set_default_swap initialDefaults "neato" "png").2.2.1 (by decide),
   (set_default_swap initialDefaults "neato" "PNG").2.2.2 (by decide)⟩

/-- Claim C1 as amended: validation in `command` and in
`set_default_engine` / `set_default_format` is case-sensitive — the value
is checked verbatim against the registry without lowercasing, so any value
outside the registry (including an uppercase spelling such as `"DOT"`) is
rejected with the unknown-capability error naming it verbatim. Lowercase
normalization happens only in the `Graphviz` configuration object's
property setters, whose outcome depends only on the lowercased value. -/
theorem capability_validation_case_handling (st : Defaults) (gst : GraphvizState)
    (e1 e2 f1 f2 : String) :
    (e1 ∉ ENGINES → command e1 f1 none none =
        Except.error (GraphvizError.unknownEngine e1) ∧
      set_default_engine st e1 = Except.error (GraphvizError.unknownEngine e1)) ∧
    (f1 ∉ FORMATS → set_default_format st f1 =
        Except.error (GraphvizError.unknownFormat f1)) ∧
    (pyLower e1 = pyLower e2 →
      Graphviz.set_engine gst e1 = Graphviz.set_engine gst e2) ∧
    (pyLower f1 = pyLower f2 →
      Graphviz.set_format gst f1 = Graphviz.set_format gst f2) := by
  refine ⟨fun h => ⟨?_, ?_⟩, fun h => ?_, fun h => ?_, fun h => ?_⟩
  · simp [command, h]
  · simp [set_default_engine, h]
  · simp [set_default_format, h]
  · simp only [Graphviz.set_engine, h]
  · simp only [Graphviz.set_format, h]

/-- Witness for the amended C1: `'DOT'` is rejected verbatim by `command`
and `set_default_engine`, `'PNG'` by `set_default_format`, and the
`Graphviz` engine setter treats `'DOT'` and `'dot'` alike. -/
theorem capability_validation_case_handling_witness :
    (command "DOT" "pdf" none none =
        Except.error (GraphvizError.unknownEngine "DOT") ∧
      set_default_engine initialDefaults "DOT" =
        Except.error (GraphvizError.unknownEngine "DOT")) ∧
    set_default_format initialDefaults "PNG" =
      Except.error (GraphvizError.unknownFormat "PNG") ∧
    Graphviz.set_engine {} "DOT" = Graphviz.set_engine {} "dot" :=
  ⟨(capability_validation_case_handling initialDefaults {} "DOT" "dot" "PNG" "png").1
     (by decide),
   (capability_validation_case_handling initialDefaults {} "DOT" "dot" "PNG" "png").2.1
     (by decide),
   (capability_validation_case_handling initialDefaults {} "DOT" "dot" "PNG" "png").2.2.1
     (by decide)⟩

/-- Counterexample to the original C1: `command` and `set_default_engine`
reject the uppercase spelling `"DOT"` with the unknown-capability error,
while `"dot"` succeeds — so their validation is not case-insensitive. -/
theorem capability_validation_uppercase_counterexample :
    command "DOT" "pdf" none none =
      Except.error (GraphvizError.unknownEngine "DOT") ∧
    command "dot" "pdf" none none = Except.ok ["dot", "-Kdot", "-Tpdf"] ∧
    set_default_engine initialDefaults "DOT" =
      Except.error (GraphvizError.unknownEngine "DOT") ∧
    set_default_format initialDefaults "PDF" =
      Except.error (GraphvizError.unknownFormat "PDF") :=
  ⟨rfl, rfl, rfl, rfl⟩

/-- Every successful result of `matchG2Absent` has exactly three groups. -/
lemma matchG2Absent_length (g1 g2 g3 : Nat) (r : List Char) (res : List Nat)
    (h : matchG2Absent g1 g2 g3 r = some res) : res.length = 3 := by
  unfold matchG2Absent at h
  split at h
  · simp only [Option.some.injEq] at h
    subst h
    rfl
  · simp at h

/-- Every successful result of `matchG2Alt2` has three or four groups. -/
lemma matchG2Alt2_length (g1 g2 g3 : Nat) (r : List Char) (res : List Nat)
    (h : matchG2Alt2 g1 g2 g3 r = some res) : res.length = 3 ∨ res.length = 4 := by
  unfold matchG2Alt2 at h
  split at h
  · split at h
    · simp only [Option.some.injEq] at h
      subst h
      exact Or.inr rfl
    · exact Or.inl (matchG2Absent_length _ _ _ _ _ h)
  · exact Or.inl (matchG2Absent_length _ _ _ _ _ h)

/-- Every successful result of `matchG2` has three or four groups. -/
lemma matchG2_length (g1 g2 g3 : Nat) (r : List Char) (res : List Nat)
    (h : matchG2 g1 g2 g3 r = some res) : res.length = 3 ∨ res.length = 4 := by
  unfold matchG2 at h
  split at h
  · split at h
    · simp only [Option.some.injEq] at h
      subst h
      exact Or.inl rfl
    · exact matchG2Alt2_length _ _ _ _ _ h
  · exact matchG2Alt2_length _ _ _ _ _ h

/-- Every successful result of `matchNoG1` has exactly two groups. -/
lemma matchNoG1_length (g1 g2 : Nat) (r : List Char) (res : List Nat)
    (h : matchNoG1 g1 g2 r = some res) : res.length = 2 := by
  unfold matchNoG1 at h
  split at h
  · simp only [Option.some.injEq] at h
    subst h
    rfl
  · simp at h

/-- Every successful result of `matchG1` has two, three or four groups. -/
lemma matchG1_length (g1 g2 : Nat) (r : List Char) (res : List Nat)
    (h : matchG1 g1 g2 r = some res) :
    res.length = 2 ∨ res.length = 3 ∨ res.length = 4 := by
  unfold matchG1 at h
  split at h
  · split at h
    · exact Or.inl (matchNoG1_length _ _ _ _ h)
    · split at h
      · rename_i res2 heq
        simp only [Option.some.injEq] at h
        subst h
        exact Or.inr (matchG2_length _ _ _ _ _ heq)
      · exact Or.inl (matchNoG1_length _ _ _ _ h)
  · exact Or.inl (matchNoG1_length _ _ _ _ h)

/-- Every successful result of `matchVersionAt` has two, three or four
groups. -/
lemma matchVersionAt_length (s : List Char) (res : List Nat)
    (h : matchVersionAt s = some res) :
    res.length = 2 ∨ res.length = 3 ∨ res.length = 4 := by
  unfold matchVersionAt at h
  split at h
  · exact absurd h (by simp)
  · split at h
    · exact absurd h (by simp)
    · split at h
      · split at h
        · exact absurd h (by simp)
        · exact matchG1_length _ _ _ _ h
      · exact absurd h (by simp)

/-- Every successful result of `searchVersion` has two, three or four
groups. -/
lemma searchVersion_length (s : List Char) (res : List Nat)
    (h : searchVersion s = some res) :
    res.length = 2 ∨ res.length = 3 ∨ res.length = 4 := by
  induction s with
  | nil => simp [searchVersion] at h
  | cons c cs ih =>
    rw [searchVersion] at h
    split at h
    · rename_i res2 heq
      simp only [Option.some.injEq] at h
      subst h
      exact matchVersionAt_length _ _ heq
    · exact ih h

/-- Claim C4: `version()` parses `"graphviz version 1.2.3 (mocked)"` to
`(1, 2, 3)`, `"graphviz version 2.43.20190912.0211 (20190912.0211)"` to
`(2, 43, 20190912, 211)`, and the development banner
`"graphviz version 2.44.2~dev.20200927.0217 (20200927.0217)"` to
`(2, 44, 2)` with the dev payload discarded; for captured text containing
no matching substring it fails with the parse error embedding that raw
text; and every successful result has 2, 3 or 4 (non-negative, `Nat`)
components. -/
theorem version_banner_parsing :
    version (fun _ => Except.ok ⟨"graphviz version 1.2.3 (mocked)"⟩) =
      Except.ok [1, 2, 3] ∧
    version (fun _ => Except.ok ⟨"graphviz version 2.43.20190912.0211 (20190912.0211)"⟩) =
      Except.ok [2, 43, 20190912, 211] ∧
    version (fun _ => Except.ok ⟨"graphviz version 2.44.2~dev.20200927.0217 (20200927.0217)"⟩) =
      Except.ok [2, 44, 2] ∧
    (∀ s : String, searchVersion s.data = none →
      version (fun _ => Except.ok ⟨s⟩) =
        Except.error (GraphvizError.cannotParseVersion s)) ∧
    (∀ runner g, version runner = Except.ok g →
      g.length = 2 ∨ g.length = 3 ∨ g.length = 4) := by
  refine ⟨rfl, rfl, rfl, fun s hs => ?_, fun runner g hg => ?_⟩
  · simp [version, parseVersionOutput, hs]
  · unfold version at hg
    split at hg
    · exact absurd hg (by simp)
    · unfold parseVersionOutput at hg
      split at hg
      · rename_i groups heq
        simp only [Except.ok.injEq] at hg
        subst hg
        exact searchVersion_length _ _ heq
      · exact absurd hg (by simp)

/-- Witness for C4: the unparsable text `"nonversioninfo"` (as in the
repository's own mocked test) yields the parse error embedding it, and the
first banner's result indeed has length 3. -/
theorem version_banner_parsing_witness :
    version (fun _ => Except.ok ⟨"nonversioninfo"⟩) =
      Except.error (GraphvizError.cannotParseVersion "nonversioninfo") ∧
    version (fun _ => Except.ok ⟨"graphviz version 1.2.3 (mocked)"⟩) =
      Except.ok [1, 2, 3] :=
  ⟨version_banner_parsing.2.2.2.1 "nonversioninfo" (by decide),
   version_banner_parsing.1⟩

/-- Claim C10: after construction and after every successful property
assignment, the `Graphviz` configuration satisfies the invariant — the
engine is a lowercase member of `ENGINES`, the format a lowercase member of
`FORMATS`, and renderer/formatter are absent or lowercase members of their
registries; assigning `None` to renderer or formatter resets the field to
the default `None`. A failed assignment raises before assigning, which the
embedding models by the setters returning an error and no new state, so
the previous value is unchanged. -/
theorem graphviz_config_invariant :
    (∀ f e r fm st, Graphviz.init f e r fm = Except.ok st → GVInv st) ∧
    (∀ st v st', GVInv st → Graphviz.set_engine st v = Except.ok st' → GVInv st') ∧
    (∀ st v st', GVInv st → Graphviz.set_format st v = Except.ok st' → GVInv st') ∧
    (∀ st v st', GVInv st → Graphviz.set_renderer st v = Except.ok st' → GVInv st') ∧
    (∀ st v st', GVInv st → Graphviz.set_formatter st v = Except.ok st' → GVInv st') ∧
    (∀ st, Graphviz.set_renderer st none = Except.ok { st with renderer := none }) ∧
    (∀ st, Graphviz.set_formatter st none = Except.ok { st with formatter := none }) :=
  ⟨fun f e r fm st h => init_preserves f e r fm st h,
   fun st v st' hinv h => set_engine_preserves st v st' hinv h,
   fun st v st' hinv h => set_format_preserves st v st' hinv h,
   fun st v st' hinv h => set_renderer_preserves st v st' hinv h,
   fun st v st' hinv h => set_formatter_preserves st v st' hinv h,
   fun _ => rfl, fun _ => rfl⟩

/-- Witness for C10: constructing with the uppercase values
`format='PNG'`, `engine='DOT'`, `renderer='CAIRO'`, `formatter='GD'`
succeeds with every field stored lowercase, and the resulting state
satisfies the invariant. -/
theorem graphviz_config_invariant_witness :
    Graphviz.init (some "PNG") (some "DOT") (some "CAIRO") (some "GD") =
      Except.ok { engine := "dot", format := "png",
                  renderer := some "cairo", formatter := some "gd" } ∧
    GVInv { engine := "dot", format := "png",
            renderer := some "cairo", formatter := some "gd" } :=
  ⟨rfl,
   graphviz_config_invariant.1 (some "PNG") (some "DOT") (some "CAIRO") (some "GD")
     { engine := "dot", format := "png",
       renderer := some "cairo", formatter := some "gd" } rfl⟩

/-- Claim C5 as amended: for every input path that path-splitting and
rejoining reproduces verbatim (every path without a redundant separator
before its final component), `render` calls the subprocess with working
directory set to the containing directory of `filepath` (or the current
directory, `none`, when `filepath` has no directory component) and, when
the subprocess succeeds, returns `filepath` extended by `'.'` and the
`'.'`-join of the non-absent members of `(formatter, renderer, format)`;
in general the returned path is the rejoin of the directory with the
extended final component. The returned path never gains a leading
separator, so it is relative whenever the input path was. -/
theorem render_derived_path {α : Type}
    (runner : RunCall → Except GraphvizError (CompletedProcess α))
    (engine fm p : String) (renderer formatter : Option String) (quiet : Bool)
    (hE : engine ∈ ENGINES) (hF : fm ∈ FORMATS)
    (hr : renderer = none ∨ ∃ r, renderer = some r ∧ r ∈ RENDERERS)
    (hf : formatter = none ∨ ∃ f, formatter = some f ∧ f ∈ FORMATTERS ∧ renderer ≠ none)
    (hp : joinPath (splitPath p).1 (splitPath p).2 = p) :
    render runner engine fm p renderer formatter quiet =
      (runner { args := [DOT_BINARY, "-K" ++ engine,
                  "-T" ++ String.intercalate ":"
                    (List.filterMap id [some fm, renderer, formatter]),
                  "-O", (splitPath p).2],
                input := StdinSpec.noInput,
                cwd := if (splitPath p).1 = "" then none else some (splitPath p).1,
                quiet := quiet }).map
        (fun _ => p ++ "." ++ String.intercalate "."
            (List.filterMap id [formatter, renderer, some fm])) ∧
    (p.data.head? ≠ some '/' →
      (p ++ "." ++ String.intercalate "."
          (List.filterMap id [formatter, renderer, some fm])).data.head? ≠ some '/') := by
  have hdot : ∀ s : String, ("." ++ s).data.head? = some '.' := by
    intro s
    rw [str_data_append]
    rfl
  constructor
  · by_cases hd : (splitPath p).1 = ""
    · have htail : (splitPath p).2 = p := by
        rw [hd, joinPath_empty] at hp
        exact hp
      simp [render,
            command_ok_of_valid engine fm renderer formatter hE hF hr hf,
            hd, htail, Except.bind]
    · have hren : joinPath (splitPath p).1
          ((splitPath p).2 ++ "." ++ String.intercalate "."
            (List.filterMap id [formatter, renderer, some fm])) =
          p ++ "." ++ String.intercalate "."
            (List.filterMap id [formatter, renderer, some fm]) := by
        rw [← str_append_assoc]
        rw [joinPath_append_suffix (splitPath p).1 (splitPath p).2
              ("." ++ String.intercalate "."
                (List.filterMap id [formatter, renderer, some fm]))
              (splitPath_tail_no_slash p) (by rw [hdot]; simp)]
        rw [hp, str_append_assoc]
      simp [render,
            command_ok_of_valid engine fm renderer formatter hE hF hr hf,
            hd, hren, Except.bind]
  · intro hrel
    by_cases hp0 : p = ""
    · subst hp0
      rw [str_empty_append, hdot]
      simp
    · rw [str_data_append, str_data_append]
      cases hpd : p.data with
      | nil => exact absurd (by cases p; simpa using congrArg String.mk hpd) hp0
      | cons c cs =>
        simp only [List.cons_append, List.head?_cons, ne_eq, Option.some.injEq]
        rw [hpd] at hrel
        simpa using hrel

/-- Witness for the amended C5: rendering `'out/file.gv'` as `pdf` with a
succeeding runner returns `'out/file.gv.pdf'` and runs from `'out'`. -/
theorem render_derived_path_witness :
    render (fun _ => Except.ok (⟨0⟩ : CompletedProcess Nat))
        "dot" "pdf" "out/file.gv" none none false =
      Except.ok "out/file.gv.pdf" :=
  ((render_derived_path (fun _ => Except.ok (⟨0⟩ : CompletedProcess Nat))
      "dot" "pdf" "out/file.gv" none none false
      (by decide) (by decide) (Or.inl rfl) (Or.inl rfl) (by decide)).1).trans rfl

/-- Counterexample to the original C5: for the input path `'a//b'` (a
redundant separator before the final component), `render` returns
`'a/b.pdf'` — the rejoin of the split parts — which differs from the
claimed `filepath + '.' + suffix = 'a//b.pdf'`. -/
theorem render_redundant_separator_counterexample :
    render (fun _ => Except.ok (⟨0⟩ : CompletedProcess Nat))
        "dot" "pdf" "a//b" none none false =
      Except.ok "a/b.pdf" ∧
    "a//b" ++ "." ++ "pdf" = "a//b.pdf" ∧
    ("a/b.pdf" : String) ≠ "a//b.pdf" :=
  ⟨rfl, rfl, by decide⟩

/-- Claim C7: each façade operation (`render`, `pipe`, `pipe_string`,
`pipe_lines`, `pipe_lines_string`) propagates the errors of the Command
Builder and of the Process Runner unchanged: when `command` fails, every
façade fails with that very error; when `command` succeeds, every façade
is exactly the runner's outcome with only its success value mapped, so a
runner error of any kind (executable-not-found, process error, ...)
surfaces unchanged, never caught, converted, or replaced by a default. -/
theorem facade_error_propagation {α : Type}
    (runner : RunCall → Except GraphvizError (CompletedProcess α))
    (pyEncode : String → String → List Nat)
    (engine fm : String) (renderer formatter : Option String)
    (data : List Nat) (input_string encoding : String)
    (input_lines : List String) (input_encoding : String)
    (filepath : String) (quiet : Bool) :
    (∀ e, command engine fm renderer formatter = Except.error e →
      pipe runner engine fm data renderer formatter quiet = Except.error e ∧
      pipe_string runner engine fm input_string encoding renderer formatter quiet =
        Except.error e ∧
      pipe_lines runner pyEncode engine fm input_lines input_encoding
        renderer formatter quiet = Except.error e ∧
      pipe_lines_string runner engine fm input_lines encoding renderer formatter quiet =
        Except.error e ∧
      render runner engine fm filepath renderer formatter quiet = Except.error e) ∧
    (∀ cmd, command engine fm renderer formatter = Except.ok cmd →
      pipe runner engine fm data renderer formatter quiet =
        (runner { args := cmd, input := StdinSpec.bytes data,
                  cwd := none, quiet := quiet }).map CompletedProcess.stdout ∧
      pipe_string runner engine fm input_string encoding renderer formatter quiet =
        (runner { args := cmd, input := StdinSpec.text input_string encoding,
                  cwd := none, quiet := quiet }).map CompletedProcess.stdout ∧
      pipe_lines runner pyEncode engine fm input_lines input_encoding
          renderer formatter quiet =
        (runner { args := cmd,
                  input := StdinSpec.byteLines
                    (input_lines.map (pyEncode input_encoding)),
                  cwd := none, quiet := quiet }).map CompletedProcess.stdout ∧
      pipe_lines_string runner engine fm input_lines encoding renderer formatter quiet =
        (runner { args := cmd, input := StdinSpec.textLines input_lines encoding,
                  cwd := none, quiet := quiet }).map CompletedProcess.stdout ∧
      render runner engine fm filepath renderer formatter quiet =
        (runner { args := cmd ++ ["-O", (splitPath filepath).2],
                  input := StdinSpec.noInput,
                  cwd := if (splitPath filepath).1 = "" then none
                         else some (splitPath filepath).1,
                  quiet := quiet }).map
          (fun _ =>
            if (splitPath filepath).1 = "" then
              (splitPath filepath).2 ++ "." ++ String.intercalate "."
                (List.filterMap id [formatter, renderer, some fm])
            else joinPath (splitPath filepath).1
              ((splitPath filepath).2 ++ "." ++ String.intercalate "."
                (List.filterMap id [formatter, renderer, some fm])))) := by
  constructor
  · intro e h
    refine ⟨?_, ?_, ?_, ?_, ?_⟩ <;>
      simp [pipe, pipe_string, pipe_lines, pipe_lines_string, render, h, Except.bind]
  · intro cmd h
    refine ⟨?_, ?_, ?_, ?_, ?_⟩ <;>
      simp [pipe, pipe_string, pipe_lines, pipe_lines_string, render, h, Except.bind]

/-- Witness for C7: a runner that fails with `ExecutableNotFound` makes
`pipe` of a valid combination fail with exactly that error, and an invalid
engine makes `pipe` fail with exactly the builder's unknown-engine error
regardless of the runner. -/
theorem facade_error_propagation_witness :
    pipe (fun _ => Except.error (GraphvizError.executableNotFound "dot") :
            RunCall → Except GraphvizError (CompletedProcess Nat))
        "dot" "svg" [] none none false =
      Except.error (GraphvizError.executableNotFound "dot") ∧
    pipe (fun _ => Except.ok (⟨0⟩ : CompletedProcess Nat))
        "BAD" "svg" [] none none false =
      Except.error (GraphvizError.unknownEngine "BAD") :=
  ⟨((facade_error_propagation
      (fun _ => Except.error (GraphvizError.executableNotFound "dot"))
      (fun _ _ => []) "dot" "svg" none none [] "" "" [] "" "" false).2
      ["dot", "-Kdot", "-Tsvg"] rfl).1,
   ((facade_error_propagation
      (fun _ => Except.ok (⟨0⟩ : CompletedProcess Nat))
      (fun _ _ => []) "BAD" "svg" none none [] "" "" [] "" "" false).1
      (GraphvizError.unknownEngine "BAD") rfl).1⟩

/-- Claim C9: the banner pattern requires a character (a space) after the
final matched digit group, so captured text that ends immediately after a
well-formed version fails to parse — `version()` raises the parse error
carrying the text — while the same text with one trailing space parses. -/
theorem version_requires_trailing_character :
    version (fun _ => Except.ok ⟨"dot - graphviz version 2.44.1"⟩) =
      Except.error (GraphvizError.cannotParseVersion "dot - graphviz version 2.44.1") ∧
    version (fun _ => Except.ok ⟨"dot - graphviz version 2.44.1 "⟩) =
      Except.ok [2, 44, 1] :=
  ⟨rfl, rfl⟩
